import Mathlib

/-!
# Verification of the loan-application generator

A shallow embedding, in Lean 4, of the core of the
`ns_e2e_data_demo` repository: the fraud-correlated customer-profile
sampler, the loan-application factory, the historical backdating,
the dual-sink delivery coordinator (Kafka publish + local SQLite row
store with a `kafka_sent` status column), and the batch / streaming
drivers (`loan_generator.py`, `loan_generator_kafka.py`).

Python's random primitives are modelled by explicit standard-uniform
draws `u : ℚ` with `0 ≤ u < 1`, one per call site, consumed in the
source's call order:

* `random.random()`       ↦ the draw itself;
* `random.randint a b`    ↦ `a + ⌊u * (b - a + 1)⌋`;
* `random.uniform a b`    ↦ `a + (b - a) * u`;
* `random.choice l`       ↦ `l[⌊u * len l⌋]`;
* `round(x, n)`           ↦ round-half-to-even at `n` decimal digits;
* `int(x)`                ↦ truncation toward zero.

Timestamps (`datetime.now().isoformat()`) are modelled as integers
(seconds); `timedelta(days = d)` is `d * 86400`.  Fallible Python
operations (SQLite `INSERT` against a primary key, division) return
`Except`.
-/

namespace LoanGen

/-- Python exceptions that the modelled code can raise. -/
inductive PyErr where
  | duplicateKey : PyErr
  | zeroDivision : PyErr
deriving DecidableEq, Repr

/-- `random.randint a b`: uniform integer in the inclusive range `[a, b]`,
driven by a standard-uniform draw `u`. -/
def randint (a b : ℤ) (u : ℚ) : ℤ :=
  a + ⌊u * ((b : ℚ) - (a : ℚ) + 1)⌋

/-- `random.uniform a b`: `a + (b - a) * u` for a standard-uniform draw `u`. -/
def pyUniform (a b u : ℚ) : ℚ :=
  a + (b - a) * u

/-- `random.choice l`: the element of `l` at index `⌊u * len l⌋`. -/
def pyChoice (l : List String) (u : ℚ) : String :=
  l.getD (⌊u * (l.length : ℚ)⌋).toNat ""

/-- Round a rational to the nearest integer, ties to the even integer
(Python's `round` on exact values). -/
def roundHalfEven (x : ℚ) : ℤ :=
  if x - (⌊x⌋ : ℚ) < 1/2 then ⌊x⌋
  else if 1/2 < x - (⌊x⌋ : ℚ) then ⌊x⌋ + 1
  else if ⌊x⌋ % 2 = 0 then ⌊x⌋ else ⌊x⌋ + 1

/-- Python `round(x, n)`: round to `n` decimal digits. -/
def pyRound (n : ℕ) (x : ℚ) : ℚ :=
  (roundHalfEven (x * 10 ^ n) : ℚ) / 10 ^ n

/-- Python `int(x)`: truncation toward zero. -/
def pyInt (x : ℚ) : ℤ :=
  if x < 0 then ⌈x⌉ else ⌊x⌋

/-- Left-pad the decimal representation of `n` with zeros to width 4
(Python's `f"{i:04d}"`). -/
def pad4 (n : ℕ) : String :=
  let s := toString n
  String.mk (List.replicate (4 - s.length) '0') ++ s

/-- `self.device_fingerprints = [f"DEV_{i:04d}" for i in range(1, 1000)]`:
the 999-entry device pool. -/
def device_fingerprints : List String :=
  (List.range' 1 999).map (fun i => "DEV_" ++ pad4 i)

/-- `self.suspicious_ips = ["10.0.0." + str(i) for i in range(1, 50)]`:
the 49-address suspicious pool. -/
def suspicious_ips : List String :=
  (List.range' 1 49).map (fun i => "10.0.0." ++ toString i)

/-- `self.normal_ips = ["192.168.1." + str(i) for i in range(1, 255)]`:
the 254-address normal pool. -/
def normal_ips : List String :=
  (List.range' 1 254).map (fun i => "192.168.1." ++ toString i)

/-- The transient customer profile returned by `generate_customer_profile`
(`is_fraud` is the Python `1 if is_suspicious else 0`). -/
structure Profile where
  customer_age : ℤ
  credit_score : ℤ
  annual_income : ℤ
  employment_length : ℚ
  debt_to_income : ℚ
  num_previous_loans : ℤ
  loan_amount : ℤ
  ip_address : String
  device_fingerprint : String
  is_fraud : ℤ
deriving DecidableEq, Repr

/-- The standard-uniform draws consumed by one call of
`generate_customer_profile`, in the source's call order.  Both branches
consume the same number of draws in the same field order (the plain
generator draws `loan_amount` after the `if`/`else`, the Kafka one
inside each arm; either way it is the last draw). -/
structure ProfileDraws where
  uBranch : ℚ
  uAge : ℚ
  uCredit : ℚ
  uIncome : ℚ
  uEmp : ℚ
  uDti : ℚ
  uLoans : ℚ
  uIp : ℚ
  uDev : ℚ
  uLoan : ℚ
deriving DecidableEq, Repr

/-- A draw is a standard-uniform sample: it lies in `[0, 1)`. -/
def UnitIv (u : ℚ) : Prop := 0 ≤ u ∧ u < 1

instance (u : ℚ) : Decidable (UnitIv u) := by
  unfold UnitIv; infer_instance

/-- All ten draws lie in `[0, 1)`. -/
def ProfileDraws.Valid (d : ProfileDraws) : Prop :=
  UnitIv d.uBranch ∧ UnitIv d.uAge ∧ UnitIv d.uCredit ∧ UnitIv d.uIncome ∧
    UnitIv d.uEmp ∧ UnitIv d.uDti ∧ UnitIv d.uLoans ∧ UnitIv d.uIp ∧
    UnitIv d.uDev ∧ UnitIv d.uLoan

instance (d : ProfileDraws) : Decidable d.Valid := by
  unfold ProfileDraws.Valid; infer_instance

/-- `generate_customer_profile` (identical in `loan_generator.py` and
`loan_generator_kafka.py`): one Bernoulli draw `random.random() < 0.2`
selects the branch; all fields are then drawn inside that branch. -/
def generate_customer_profile (d : ProfileDraws) : Profile :=
  let is_suspicious := d.uBranch < 2/10
  if is_suspicious then
    let age := randint 18 30 d.uAge
    let credit_score := randint 300 550 d.uCredit
    let income := randint 15000 35000 d.uIncome
    let employment_length := pyUniform 0 2 d.uEmp
    let debt_to_income := pyUniform (6/10) (12/10) d.uDti
    let num_previous_loans := randint 3 10 d.uLoans
    let ip_address := pyChoice suspicious_ips d.uIp
    let device_fingerprint := pyChoice (device_fingerprints.take 100) d.uDev
    let loan_amount :=
      randint (pyInt ((income : ℚ) * (8/10))) (pyInt ((income : ℚ) * (25/10))) d.uLoan
    { customer_age := age
      credit_score := credit_score
      annual_income := income
      employment_length := pyRound 1 employment_length
      debt_to_income := pyRound 3 debt_to_income
      num_previous_loans := num_previous_loans
      loan_amount := loan_amount
      ip_address := ip_address
      device_fingerprint := device_fingerprint
      is_fraud := 1 }
  else
    let age := randint 25 65 d.uAge
    let credit_score := randint 600 850 d.uCredit
    let income := randint 40000 120000 d.uIncome
    let employment_length := pyUniform 1 15 d.uEmp
    let debt_to_income := pyUniform (1/10) (5/10) d.uDti
    let num_previous_loans := randint 0 3 d.uLoans
    let ip_address := pyChoice normal_ips d.uIp
    let device_fingerprint := pyChoice device_fingerprints d.uDev
    let loan_amount :=
      randint (pyInt ((income : ℚ) * (1/10))) (pyInt ((income : ℚ) * (6/10))) d.uLoan
    { customer_age := age
      credit_score := credit_score
      annual_income := income
      employment_length := pyRound 1 employment_length
      debt_to_income := pyRound 3 debt_to_income
      num_previous_loans := num_previous_loans
      loan_amount := loan_amount
      ip_address := ip_address
      device_fingerprint := device_fingerprint
      is_fraud := 0 }

/-- The suspicious branch of the sampler, as the spec describes it:
all fields drawn jointly from the high-risk distributions. -/
def suspiciousProfile (d : ProfileDraws) : Profile :=
  let age := randint 18 30 d.uAge
  let credit_score := randint 300 550 d.uCredit
  let income := randint 15000 35000 d.uIncome
  let employment_length := pyUniform 0 2 d.uEmp
  let debt_to_income := pyUniform (6/10) (12/10) d.uDti
  let num_previous_loans := randint 3 10 d.uLoans
  let ip_address := pyChoice suspicious_ips d.uIp
  let device_fingerprint := pyChoice (device_fingerprints.take 100) d.uDev
  let loan_amount :=
    randint (pyInt ((income : ℚ) * (8/10))) (pyInt ((income : ℚ) * (25/10))) d.uLoan
  { customer_age := age
    credit_score := credit_score
    annual_income := income
    employment_length := pyRound 1 employment_length
    debt_to_income := pyRound 3 debt_to_income
    num_previous_loans := num_previous_loans
    loan_amount := loan_amount
    ip_address := ip_address
    device_fingerprint := device_fingerprint
    is_fraud := 1 }

/-- The normal branch of the sampler, as the spec describes it:
all fields drawn jointly from the normal distributions. -/
def normalProfile (d : ProfileDraws) : Profile :=
  let age := randint 25 65 d.uAge
  let credit_score := randint 600 850 d.uCredit
  let income := randint 40000 120000 d.uIncome
  let employment_length := pyUniform 1 15 d.uEmp
  let debt_to_income := pyUniform (1/10) (5/10) d.uDti
  let num_previous_loans := randint 0 3 d.uLoans
  let ip_address := pyChoice normal_ips d.uIp
  let device_fingerprint := pyChoice device_fingerprints d.uDev
  let loan_amount :=
    randint (pyInt ((income : ℚ) * (1/10))) (pyInt ((income : ℚ) * (6/10))) d.uLoan
  { customer_age := age
    credit_score := credit_score
    annual_income := income
    employment_length := pyRound 1 employment_length
    debt_to_income := pyRound 3 debt_to_income
    num_previous_loans := num_previous_loans
    loan_amount := loan_amount
    ip_address := ip_address
    device_fingerprint := device_fingerprint
    is_fraud := 0 }

/-- The pool sizes the spec documents: 49 suspicious addresses, 254 normal
addresses, a 999-entry device pool of which the suspicious branch uses only
the first 100 entries. -/
def PoolSizesOK : Prop :=
  suspicious_ips.length = 49 ∧ normal_ips.length = 254 ∧
    device_fingerprints.length = 999 ∧ (device_fingerprints.take 100).length = 100

/-- Field ranges actually guaranteed for a suspicious profile.  The two
rounded real fields are closed intervals: `round` at the stored precision
can land exactly on the upper endpoint. -/
def SuspiciousRangeOK (p : Profile) : Prop :=
  18 ≤ p.customer_age ∧ p.customer_age ≤ 30 ∧
  300 ≤ p.credit_score ∧ p.credit_score ≤ 550 ∧
  15000 ≤ p.annual_income ∧ p.annual_income ≤ 35000 ∧
  0 ≤ p.employment_length ∧ p.employment_length ≤ 2 ∧
  6/10 ≤ p.debt_to_income ∧ p.debt_to_income ≤ 12/10 ∧
  3 ≤ p.num_previous_loans ∧ p.num_previous_loans ≤ 10 ∧
  p.ip_address ∈ suspicious_ips ∧
  p.device_fingerprint ∈ device_fingerprints.take 100

/-- Field ranges actually guaranteed for a normal profile (rounded real
fields closed, as above). -/
def NormalRangeOK (p : Profile) : Prop :=
  25 ≤ p.customer_age ∧ p.customer_age ≤ 65 ∧
  600 ≤ p.credit_score ∧ p.credit_score ≤ 850 ∧
  40000 ≤ p.annual_income ∧ p.annual_income ≤ 120000 ∧
  1 ≤ p.employment_length ∧ p.employment_length ≤ 15 ∧
  1/10 ≤ p.debt_to_income ∧ p.debt_to_income ≤ 5/10 ∧
  0 ≤ p.num_previous_loans ∧ p.num_previous_loans ≤ 3 ∧
  p.ip_address ∈ normal_ips ∧
  p.device_fingerprint ∈ device_fingerprints

/-- The suspicious-branch ranges exactly as the spec states them, with
half-open intervals for the uniform real fields even after rounding. -/
def ClaimedSuspiciousRange (p : Profile) : Prop :=
  18 ≤ p.customer_age ∧ p.customer_age ≤ 30 ∧
  300 ≤ p.credit_score ∧ p.credit_score ≤ 550 ∧
  15000 ≤ p.annual_income ∧ p.annual_income ≤ 35000 ∧
  0 ≤ p.employment_length ∧ p.employment_length < 2 ∧
  6/10 ≤ p.debt_to_income ∧ p.debt_to_income < 12/10 ∧
  3 ≤ p.num_previous_loans ∧ p.num_previous_loans ≤ 10 ∧
  p.ip_address ∈ suspicious_ips ∧
  p.device_fingerprint ∈ device_fingerprints.take 100

/-- The normal-branch ranges exactly as the spec states them. -/
def ClaimedNormalRange (p : Profile) : Prop :=
  25 ≤ p.customer_age ∧ p.customer_age ≤ 65 ∧
  600 ≤ p.credit_score ∧ p.credit_score ≤ 850 ∧
  40000 ≤ p.annual_income ∧ p.annual_income ≤ 120000 ∧
  1 ≤ p.employment_length ∧ p.employment_length < 15 ∧
  1/10 ≤ p.debt_to_income ∧ p.debt_to_income < 5/10 ∧
  0 ≤ p.num_previous_loans ∧ p.num_previous_loans ≤ 3 ∧
  p.ip_address ∈ normal_ips ∧
  p.device_fingerprint ∈ device_fingerprints

instance (p : Profile) : Decidable (ClaimedSuspiciousRange p) := by
  unfold ClaimedSuspiciousRange; infer_instance

instance (p : Profile) : Decidable (ClaimedNormalRange p) := by
  unfold ClaimedNormalRange; infer_instance

instance (p : Profile) : Decidable (SuspiciousRangeOK p) := by
  unfold SuspiciousRangeOK; infer_instance

instance (p : Profile) : Decidable (NormalRangeOK p) := by
  unfold NormalRangeOK; infer_instance

instance : Decidable PoolSizesOK := by
  unfold PoolSizesOK; infer_instance

/-- The loan-amount bounds exactly as the spec states them, relative to the
exact products `0.8 × income` etc. -/
def ClaimedLoanBounds (p : Profile) : Prop :=
  (p.is_fraud = 1 →
    (p.annual_income : ℚ) * (8/10) ≤ (p.loan_amount : ℚ) ∧
      (p.loan_amount : ℚ) ≤ (p.annual_income : ℚ) * (25/10)) ∧
  (p.is_fraud = 0 →
    (p.annual_income : ℚ) * (1/10) ≤ (p.loan_amount : ℚ) ∧
      (p.loan_amount : ℚ) ≤ (p.annual_income : ℚ) * (6/10))

instance (p : Profile) : Decidable (ClaimedLoanBounds p) := by
  unfold ClaimedLoanBounds; infer_instance

/-- The loan-amount bounds the code guarantees: the endpoints pass through
Python's `int` truncation, so the lower endpoint is `⌊0.8 × income⌋`,
which can be (less than one unit) below `0.8 × income`; the upper bound
`2.5 × income` still holds. -/
def AmendedLoanBounds (p : Profile) : Prop :=
  (p.is_fraud = 1 →
    pyInt ((p.annual_income : ℚ) * (8/10)) ≤ p.loan_amount ∧
      p.loan_amount ≤ pyInt ((p.annual_income : ℚ) * (25/10)) ∧
      (p.annual_income : ℚ) * (8/10) - 1 < (p.loan_amount : ℚ) ∧
      (p.loan_amount : ℚ) ≤ (p.annual_income : ℚ) * (25/10)) ∧
  (p.is_fraud = 0 →
    pyInt ((p.annual_income : ℚ) * (1/10)) ≤ p.loan_amount ∧
      p.loan_amount ≤ pyInt ((p.annual_income : ℚ) * (6/10)) ∧
      (p.annual_income : ℚ) * (1/10) - 1 < (p.loan_amount : ℚ) ∧
      (p.loan_amount : ℚ) ≤ (p.annual_income : ℚ) * (6/10))

instance (p : Profile) : Decidable (AmendedLoanBounds p) := by
  unfold AmendedLoanBounds; infer_instance

/-- All-zero draws: a valid input selecting the suspicious branch with
every field at its lower endpoint. -/
def dZero : ProfileDraws :=
  { uBranch := 0, uAge := 0, uCredit := 0, uIncome := 0, uEmp := 0,
    uDti := 0, uLoans := 0, uIp := 0, uDev := 0, uLoan := 0 }

/-- Suspicious-branch draws whose debt-to-income draw makes
`round(uniform(0.6, 1.2), 3)` land exactly on `1.2`. -/
def dDtiSusp : ProfileDraws :=
  { dZero with uDti := mkRat 9995 10000 }

/-- Normal-branch draws whose debt-to-income draw makes
`round(uniform(0.1, 0.5), 3)` land exactly on `0.5`. -/
def dDtiNorm : ProfileDraws :=
  { dZero with uBranch := mkRat 5 10, uDti := mkRat 999 1000 }

/-- Suspicious-branch draws producing `annual_income = 15001` and the
lowest possible loan draw, exposing the `int` truncation of the lower
loan bound. -/
def dIncome15001 : ProfileDraws :=
  { dZero with uIncome := mkRat 1 20001 }

/-- A loan application as built by `generate_loan_application` and
persisted in the `loan_applications` table (instants as integers). -/
structure LoanApplication where
  loan_id : String
  customer_id : String
  application_timestamp : ℤ
  loan_amount : ℤ
  customer_age : ℤ
  credit_score : ℤ
  annual_income : ℤ
  employment_length : ℚ
  debt_to_income : ℚ
  num_previous_loans : ℤ
  device_fingerprint : String
  ip_address : String
  application_channel : String
  is_fraud : ℤ
  created_at : ℤ
  updated_at : ℤ
deriving DecidableEq, Repr

/-- The non-profile inputs consumed by one `generate_loan_application`
call: the profile draws, the two `uuid4().hex[:8].upper()` tokens, the
channel draw, and the three successive `datetime.now()` reads in the
dict's evaluation order (`application_timestamp` first, then
`created_at`, then `updated_at`). -/
structure AppInputs where
  draws : ProfileDraws
  loanTok : String
  custTok : String
  uChannel : ℚ
  t1 : ℤ
  t2 : ℤ
  t3 : ℤ
deriving Repr

/-- `['mobile_app', 'web', 'call_center']`. -/
def application_channels : List String := ["mobile_app", "web", "call_center"]

/-- `generate_loan_application` (identical in both generator scripts):
combine a sampled profile with identity, channel and the three
`datetime.now()` reads. -/
def generate_loan_application (i : AppInputs) : LoanApplication :=
  let profile := generate_customer_profile i.draws
  { loan_id := "LOAN_" ++ i.loanTok
    customer_id := "CUST_" ++ i.custTok
    application_timestamp := i.t1
    loan_amount := profile.loan_amount
    customer_age := profile.customer_age
    credit_score := profile.credit_score
    annual_income := profile.annual_income
    employment_length := profile.employment_length
    debt_to_income := profile.debt_to_income
    num_previous_loans := profile.num_previous_loans
    device_fingerprint := profile.device_fingerprint
    ip_address := profile.ip_address
    application_channel := pyChoice application_channels i.uChannel
    is_fraud := profile.is_fraud
    created_at := i.t2
    updated_at := i.t3 }

/-- The backdating step of `batch_send_historical_data` /
`generate_historical_data`: one `datetime.now()` read `nowB`,
`days_ago = random.randint(1, 90)`, and all three timestamp fields
overwritten with the same `historical_time` (a day is 86400 seconds). -/
def make_historical (app : LoanApplication) (nowB : ℤ) (uDays : ℚ) : LoanApplication :=
  let days_ago := randint 1 90 uDays
  let historical_time := nowB - days_ago * 86400
  { app with
      application_timestamp := historical_time
      created_at := historical_time
      updated_at := historical_time }

/-- A row of the `loan_applications` table of `loan_generator_kafka.py`:
the application fields plus the `kafka_sent` status column (the plain
generator's table is the same without that column; it is never read
there). -/
structure StoredRow where
  app : LoanApplication
  kafka_sent : Bool
deriving DecidableEq, Repr

/-- `store_locally` / `insert_application`: a plain SQL `INSERT` against
the `loan_id` primary key.  A duplicate key raises (sqlite
`IntegrityError`), there is no handler; otherwise the row is appended. -/
def store_locally (db : List StoredRow) (app : LoanApplication) (kafka_sent : Bool) :
    Except PyErr (List StoredRow) :=
  if db.any (fun r => r.app.loan_id == app.loan_id) then
    Except.error PyErr.duplicateKey
  else
    Except.ok (db ++ [⟨app, kafka_sent⟩])

/-- Sequential inserts; a raised exception aborts the remaining inserts
(no handler in either generation loop catches it). -/
def insert_all (db : List StoredRow) :
    List (LoanApplication × Bool) → Except PyErr (List StoredRow)
  | [] => Except.ok db
  | (a, k) :: rest =>
    match store_locally db a k with
    | Except.error e => Except.error e
    | Except.ok db1 => insert_all db1 rest

/-- `send_to_kafka`: `producer.produce` + `poll(0)` inside `try/except`;
returns `True` on success, `False` if the publish attempt raised. -/
def send_to_kafka (produceResult : Except Unit Unit) : Bool :=
  match produceResult with
  | Except.ok _ => true
  | Except.error _ => false

/-- One iteration of the loop in `batch_send_historical_data`: generate,
backdate, `send_to_kafka` (updating `sent_count`), update `fraud_count`,
then `store_locally(app, True)` — the persisted delivery status is the
literal `True` from the source, not the observed `kafka_success`. -/
def batch_step (produceResult : Except Unit Unit) (gin : AppInputs × ℤ × ℚ)
    (st : List StoredRow × ℕ × ℕ) : Except PyErr (List StoredRow × ℕ × ℕ) :=
  let app := make_historical (generate_loan_application gin.1) gin.2.1 gin.2.2
  let kafka_success := send_to_kafka produceResult
  let sent_count := if kafka_success then st.2.1 + 1 else st.2.1
  let fraud_count := if app.is_fraud ≠ 0 then st.2.2 + 1 else st.2.2
  match store_locally st.1 app true with
  | Except.error e => Except.error e
  | Except.ok db1 => Except.ok (db1, sent_count, fraud_count)

/-- The batch loop, `pub i` being the outcome of the `i`-th
`producer.produce` call. -/
def batch_run (pub : ℕ → Except Unit Unit) :
    ℕ → List (AppInputs × ℤ × ℚ) → List StoredRow × ℕ × ℕ →
      Except PyErr (List StoredRow × ℕ × ℕ)
  | _, [], st => Except.ok st
  | i, gin :: rest, st =>
    match batch_step (pub i) gin st with
    | Except.error e => Except.error e
    | Except.ok st1 => batch_run pub (i + 1) rest st1

/-- `batch_send_historical_data`: run the batch loop over per-record
generation inputs against a store, starting from zero counters; returns
the final store plus the `sent_count` and `fraud_count` counters. -/
def batch_send_historical_data (pub : ℕ → Except Unit Unit)
    (inputs : List (AppInputs × ℤ × ℚ)) (db : List StoredRow) :
    Except PyErr (List StoredRow × ℕ × ℕ) :=
  batch_run pub 0 inputs (db, 0, 0)

/-- The `except KeyboardInterrupt` handler of `generate_and_stream`:
print the totals, compute `fraud_detected/applications_sent*100`
(a `ZeroDivisionError` when nothing was sent), then `producer.flush()`.
Returns the summary `(total, fraud count, fraud rate)` paired with
whether the flush was reached. -/
def stream_shutdown (applications_sent fraud_detected : ℕ) :
    Except PyErr ((ℕ × ℕ × ℚ) × Bool) :=
  if applications_sent = 0 then Except.error PyErr.zeroDivision
  else
    Except.ok ((applications_sent, fraud_detected,
      (fraud_detected : ℚ) / (applications_sent : ℚ) * 100), true)

/-- `query_recent_applications`: SQL `SELECT * FROM loan_applications
WHERE application_timestamp >= since ORDER BY application_timestamp
DESC`. -/
def query_recent_applications (db : List StoredRow) (since : ℤ) : List StoredRow :=
  (db.filter (fun r => since ≤ r.app.application_timestamp)).insertionSort
    (fun a b => b.app.application_timestamp ≤ a.app.application_timestamp)

/-- SQL `AVG`: `NULL` on an empty selection, else the mean. -/
def sqlAvg (l : List ℚ) : Option ℚ :=
  if l.isEmpty then none else some (l.sum / l.length)

/-- The figures printed by `show_fraud_stats`. -/
structure FraudStats where
  total : ℕ
  fraud_count : ℕ
  fraud_rate : ℚ
  avg_fraud_amount : ℚ
  avg_normal_amount : ℚ
deriving DecidableEq, Repr

/-- `show_fraud_stats`: total count, fraud count, fraud rate (guarded by
`if total > 0 else 0`), and per-class average loan amounts with the SQL
`NULL` of `AVG` over an empty class coalesced to `0` by `or 0`. -/
def show_fraud_stats (db : List StoredRow) : FraudStats :=
  let total := db.length
  let fraud_count := (db.filter (fun r => r.app.is_fraud == 1)).length
  let avg_fraud := (sqlAvg ((db.filter (fun r => r.app.is_fraud == 1)).map
    (fun r => (r.app.loan_amount : ℚ)))).getD 0
  let avg_normal := (sqlAvg ((db.filter (fun r => r.app.is_fraud == 0)).map
    (fun r => (r.app.loan_amount : ℚ)))).getD 0
  let fraud_rate := if 0 < total then (fraud_count : ℚ) / (total : ℚ) * 100 else 0
  { total := total
    fraud_count := fraud_count
    fraud_rate := fraud_rate
    avg_fraud_amount := avg_fraud
    avg_normal_amount := avg_normal }

/-- A stub publisher whose every `produce` raises, as in the spec's
always-failing-publish scenario. -/
def alwaysFailPub : ℕ → Except Unit Unit := fun _ => Except.error ()

/-- Generation inputs for the `n`-th record of a concrete batch run
(distinct uuid tokens, all other randomness at zero, `now = 0`). -/
def histInput (n : ℕ) : AppInputs × ℤ × ℚ :=
  ({ draws := dZero, loanTok := toString n, custTok := toString n,
     uChannel := 0, t1 := 0, t2 := 0, t3 := 0 }, 0, 0)

/-- Five concrete batch-generation inputs. -/
def inputs5 : List (AppInputs × ℤ × ℚ) := (List.range 5).map histInput

/-- Live-mode inputs where the clock advances between the `created_at`
and `updated_at` reads. -/
def appInputsTick : AppInputs :=
  { draws := dZero, loanTok := "AB12CD34", custTok := "EF56AB78",
    uChannel := 0, t1 := 0, t2 := 0, t3 := 1 }

/-- Live-mode inputs where the three clock reads coincide. -/
def appInputsSame : AppInputs :=
  { draws := dZero, loanTok := "AB12CD34", custTok := "EF56AB78",
    uChannel := 0, t1 := 5, t2 := 5, t3 := 5 }

/-- A concrete application used in store examples. -/
def appZero : LoanApplication :=
  { loan_id := "LOAN_00000000", customer_id := "CUST_00000000",
    application_timestamp := 0, loan_amount := 0, customer_age := 0,
    credit_score := 0, annual_income := 0, employment_length := 0,
    debt_to_income := 0, num_previous_loans := 0, device_fingerprint := "",
    ip_address := "", application_channel := "", is_fraud := 0,
    created_at := 0, updated_at := 0 }

/-- A second application with a fresh `loan_id`. -/
def appOther : LoanApplication :=
  { appZero with loan_id := "LOAN_11111111" }

/-- A store already holding `appZero`. -/
def dbOne : List StoredRow := [⟨appZero, false⟩]

instance : IsTotal StoredRow
    (fun a b => b.app.application_timestamp ≤ a.app.application_timestamp) :=
  ⟨fun _ _ => le_total _ _⟩

instance : IsTrans StoredRow
    (fun a b => b.app.application_timestamp ≤ a.app.application_timestamp) :=
  ⟨fun _ _ _ hab hbc => le_trans hbc hab⟩

lemma gen_eq_suspicious (d : ProfileDraws) (h : d.uBranch < 2/10) :
    generate_customer_profile d = suspiciousProfile d := by
  unfold generate_customer_profile suspiciousProfile
  rw [if_pos h]

lemma gen_eq_normal (d : ProfileDraws) (h : ¬ d.uBranch < 2/10) :
    generate_customer_profile d = normalProfile d := by
  unfold generate_customer_profile normalProfile
  rw [if_neg h]

/-- **C2.** For every generated profile, the branch is chosen once by the
single Bernoulli draw `random.random() < 0.2`; every field of the profile
comes from that one branch's sampler, and `is_fraud = 1` exactly when the
suspicious branch was chosen. -/
theorem profile_single_branch_and_fraud_flag (d : ProfileDraws) :
    generate_customer_profile d =
      (if d.uBranch < 2/10 then suspiciousProfile d else normalProfile d) ∧
    ((generate_customer_profile d).is_fraud = 1 ↔ d.uBranch < 2/10) := by
  by_cases h : d.uBranch < 2/10
  · constructor
    · rw [if_pos h]; exact gen_eq_suspicious d h
    · rw [gen_eq_suspicious d h]
      exact ⟨fun _ => h, fun _ => rfl⟩
  · constructor
    · rw [if_neg h]; exact gen_eq_normal d h
    · rw [gen_eq_normal d h]
      constructor
      · intro h0
        have h0' : (0 : ℤ) = 1 := h0
        exact absurd h0' (by norm_num)
      · intro hb
        exact absurd hb h

lemma floor_unit_mul (u : ℚ) (n : ℤ) (h0 : 0 ≤ u) (h1 : u < 1) (hn : 0 < n) :
    0 ≤ ⌊u * (n : ℚ)⌋ ∧ ⌊u * (n : ℚ)⌋ < n := by
  have hnq : (0 : ℚ) < (n : ℚ) := by exact_mod_cast hn
  constructor
  · exact Int.floor_nonneg.mpr (mul_nonneg h0 hnq.le)
  · apply Int.floor_lt.mpr
    have h := mul_lt_mul_of_pos_right h1 hnq
    simpa using h

lemma randint_mem (a b : ℤ) (u : ℚ) (hab : a ≤ b) (h0 : 0 ≤ u) (h1 : u < 1) :
    a ≤ randint a b u ∧ randint a b u ≤ b := by
  have hn : (0 : ℤ) < b - a + 1 := by omega
  have hcast : ((b : ℚ) - (a : ℚ) + 1) = ((b - a + 1 : ℤ) : ℚ) := by push_cast; ring
  have h := floor_unit_mul u (b - a + 1) h0 h1 hn
  unfold randint
  rw [hcast]
  omega

lemma pyUniform_mem (a b u : ℚ) (hab : a < b) (h0 : 0 ≤ u) (h1 : u < 1) :
    a ≤ pyUniform a b u ∧ pyUniform a b u < b := by
  unfold pyUniform
  constructor
  · nlinarith
  · nlinarith

lemma roundHalfEven_mem (y : ℚ) :
    ⌊y⌋ ≤ roundHalfEven y ∧ roundHalfEven y ≤ ⌊y⌋ + 1 := by
  unfold roundHalfEven
  split
  · omega
  · split
    · omega
    · split <;> omega

lemma pyRound_mem (n : ℕ) (A B : ℤ) (x : ℚ)
    (hA : (A : ℚ) / 10 ^ n ≤ x) (hB : x < (B : ℚ) / 10 ^ n) :
    (A : ℚ) / 10 ^ n ≤ pyRound n x ∧ pyRound n x ≤ (B : ℚ) / 10 ^ n := by
  have hpow : (0 : ℚ) < 10 ^ n := by positivity
  have hy1 : (A : ℚ) ≤ x * 10 ^ n := (div_le_iff hpow).mp hA
  have hy2 : x * 10 ^ n < (B : ℚ) := by
    have h := (lt_div_iff hpow).mp hB
    exact h
  have hfl : A ≤ ⌊x * 10 ^ n⌋ := Int.le_floor.mpr hy1
  have hfu : ⌊x * 10 ^ n⌋ < B := by
    have h : ((⌊x * 10 ^ n⌋ : ℤ) : ℚ) < (B : ℚ) := lt_of_le_of_lt (Int.floor_le _) hy2
    exact_mod_cast h
  obtain ⟨hr1, hr2⟩ := roundHalfEven_mem (x * 10 ^ n)
  have hR1 : A ≤ roundHalfEven (x * 10 ^ n) := le_trans hfl hr1
  have hR2 : roundHalfEven (x * 10 ^ n) ≤ B := by omega
  unfold pyRound
  constructor
  · exact (div_le_div_right hpow).mpr (by exact_mod_cast hR1)
  · exact (div_le_div_right hpow).mpr (by exact_mod_cast hR2)

lemma pyChoice_mem (l : List String) (u : ℚ) (hl : l ≠ []) (h0 : 0 ≤ u) (h1 : u < 1) :
    pyChoice l u ∈ l := by
  have hlen : 0 < l.length := List.length_pos.mpr hl
  have hz : (0 : ℤ) < (l.length : ℤ) := by exact_mod_cast hlen
  have h := floor_unit_mul u (l.length : ℤ) h0 h1 hz
  have hcast : (((l.length : ℤ) : ℚ)) = (l.length : ℚ) := by push_cast; ring
  rw [hcast] at h
  have hidx : (⌊u * (l.length : ℚ)⌋).toNat < l.length := by omega
  unfold pyChoice
  rw [List.getD_eq_getElem l "" hidx]
  exact List.getElem_mem hidx

lemma pyInt_eq_floor (x : ℚ) (h : 0 ≤ x) : pyInt x = ⌊x⌋ :=
  if_neg (not_lt.mpr h)

lemma pool_sizes : PoolSizesOK := by
  unfold PoolSizesOK suspicious_ips normal_ips device_fingerprints
  simp

lemma suspicious_ips_ne_nil : suspicious_ips ≠ [] := by
  apply List.ne_nil_of_length_pos
  have h : suspicious_ips.length = 49 := pool_sizes.1
  omega

lemma normal_ips_ne_nil : normal_ips ≠ [] := by
  apply List.ne_nil_of_length_pos
  have h : normal_ips.length = 254 := pool_sizes.2.1
  omega

lemma device_fingerprints_ne_nil : device_fingerprints ≠ [] := by
  apply List.ne_nil_of_length_pos
  have h : device_fingerprints.length = 999 := pool_sizes.2.2.1
  omega

lemma device_take_ne_nil : device_fingerprints.take 100 ≠ [] := by
  apply List.ne_nil_of_length_pos
  have h : (device_fingerprints.take 100).length = 100 := pool_sizes.2.2.2
  omega

lemma pyRound_mem' (n : ℕ) (A B : ℤ) (x lo hi : ℚ)
    (hlo : lo = (A : ℚ) / 10 ^ n) (hhi : hi = (B : ℚ) / 10 ^ n)
    (h1 : lo ≤ x) (h2 : x < hi) :
    lo ≤ pyRound n x ∧ pyRound n x ≤ hi := by
  subst hlo hhi
  exact pyRound_mem n A B x h1 h2

lemma suspiciousRangeOK_of_valid (d : ProfileDraws) (h : d.Valid) :
    SuspiciousRangeOK (suspiciousProfile d) := by
  obtain ⟨hB, hA, hC, hI, hE, hD, hL, hIp, hDev, hLoan⟩ := h
  have hage := randint_mem 18 30 d.uAge (by norm_num) hA.1 hA.2
  have hcr := randint_mem 300 550 d.uCredit (by norm_num) hC.1 hC.2
  have hin := randint_mem 15000 35000 d.uIncome (by norm_num) hI.1 hI.2
  have hemp := pyUniform_mem 0 2 d.uEmp (by norm_num) hE.1 hE.2
  have hempR := pyRound_mem' 1 0 20 (pyUniform 0 2 d.uEmp) 0 2
    (by norm_num) (by norm_num) hemp.1 hemp.2
  have hdti := pyUniform_mem (6/10) (12/10) d.uDti (by norm_num) hD.1 hD.2
  have hdtiR := pyRound_mem' 3 600 1200 (pyUniform (6/10) (12/10) d.uDti) (6/10) (12/10)
    (by norm_num) (by norm_num) hdti.1 hdti.2
  have hnl := randint_mem 3 10 d.uLoans (by norm_num) hL.1 hL.2
  have hip := pyChoice_mem suspicious_ips d.uIp suspicious_ips_ne_nil hIp.1 hIp.2
  have hdev := pyChoice_mem (device_fingerprints.take 100) d.uDev
    device_take_ne_nil hDev.1 hDev.2
  unfold SuspiciousRangeOK
  exact ⟨hage.1, hage.2, hcr.1, hcr.2, hin.1, hin.2, hempR.1, hempR.2,
    hdtiR.1, hdtiR.2, hnl.1, hnl.2, hip, hdev⟩

lemma normalRangeOK_of_valid (d : ProfileDraws) (h : d.Valid) :
    NormalRangeOK (normalProfile d) := by
  obtain ⟨hB, hA, hC, hI, hE, hD, hL, hIp, hDev, hLoan⟩ := h
  have hage := randint_mem 25 65 d.uAge (by norm_num) hA.1 hA.2
  have hcr := randint_mem 600 850 d.uCredit (by norm_num) hC.1 hC.2
  have hin := randint_mem 40000 120000 d.uIncome (by norm_num) hI.1 hI.2
  have hemp := pyUniform_mem 1 15 d.uEmp (by norm_num) hE.1 hE.2
  have hempR := pyRound_mem' 1 10 150 (pyUniform 1 15 d.uEmp) 1 15
    (by norm_num) (by norm_num) hemp.1 hemp.2
  have hdti := pyUniform_mem (1/10) (5/10) d.uDti (by norm_num) hD.1 hD.2
  have hdtiR := pyRound_mem' 3 100 500 (pyUniform (1/10) (5/10) d.uDti) (1/10) (5/10)
    (by norm_num) (by norm_num) hdti.1 hdti.2
  have hnl := randint_mem 0 3 d.uLoans (by norm_num) hL.1 hL.2
  have hip := pyChoice_mem normal_ips d.uIp normal_ips_ne_nil hIp.1 hIp.2
  have hdev := pyChoice_mem device_fingerprints d.uDev
    device_fingerprints_ne_nil hDev.1 hDev.2
  unfold NormalRangeOK
  exact ⟨hage.1, hage.2, hcr.1, hcr.2, hin.1, hin.2, hempR.1, hempR.2,
    hdtiR.1, hdtiR.2, hnl.1, hnl.2, hip, hdev⟩

lemma floor_eval (x : ℚ) (n : ℤ) (h1 : (n : ℚ) ≤ x) (h2 : x < (n : ℚ) + 1) :
    ⌊x⌋ = n :=
  Int.floor_eq_iff.mpr ⟨h1, h2⟩

lemma pyRound_eval_up (n : ℕ) (x : ℚ) (m : ℤ)
    (hf : ⌊x * 10 ^ n⌋ = m) (hr : 1/2 < x * 10 ^ n - (m : ℚ)) :
    pyRound n x = ((m + 1 : ℤ) : ℚ) / 10 ^ n := by
  unfold pyRound roundHalfEven
  rw [hf, if_neg (by linarith), if_pos hr]

lemma dDtiSusp_dti_eval :
    (suspiciousProfile dDtiSusp).debt_to_income = 6/5 := by
  show pyRound 3 (pyUniform (6/10) (12/10) dDtiSusp.uDti) = 6/5
  have hu : dDtiSusp.uDti = mkRat 9995 10000 := rfl
  have hx : pyUniform (6/10) (12/10) dDtiSusp.uDti * 10 ^ (3 : ℕ) = 11997/10 := by
    unfold pyUniform
    rw [hu, Rat.mkRat_eq_div]
    norm_num
  have hf : ⌊pyUniform (6/10) (12/10) dDtiSusp.uDti * 10 ^ (3 : ℕ)⌋ = 1199 := by
    rw [hx]
    exact floor_eval _ 1199 (by norm_num) (by norm_num)
  rw [pyRound_eval_up 3 _ 1199 hf (by rw [hx]; norm_num)]
  norm_num

lemma dDtiNorm_dti_eval :
    (normalProfile dDtiNorm).debt_to_income = 1/2 := by
  show pyRound 3 (pyUniform (1/10) (5/10) dDtiNorm.uDti) = 1/2
  have hu : dDtiNorm.uDti = mkRat 999 1000 := rfl
  have hx : pyUniform (1/10) (5/10) dDtiNorm.uDti * 10 ^ (3 : ℕ) = 4996/10 := by
    unfold pyUniform
    rw [hu, Rat.mkRat_eq_div]
    norm_num
  have hf : ⌊pyUniform (1/10) (5/10) dDtiNorm.uDti * 10 ^ (3 : ℕ)⌋ = 499 := by
    rw [hx]
    exact floor_eval _ 499 (by norm_num) (by norm_num)
  rw [pyRound_eval_up 3 _ 499 hf (by rw [hx]; norm_num)]
  norm_num

/-- **C3 counterexample.** The half-open upper bounds the spec claims for
the rounded real fields fail: with the suspicious draw `uDti = 0.9995`,
`round(uniform(0.6, 1.2), 3)` is exactly `1.2`, and with the normal draw
`uDti = 0.999`, `round(uniform(0.1, 0.5), 3)` is exactly `0.5`. -/
theorem profile_range_claim_fails :
    dDtiSusp.Valid ∧ (generate_customer_profile dDtiSusp).is_fraud = 1 ∧
      ¬ ClaimedSuspiciousRange (generate_customer_profile dDtiSusp) ∧
    dDtiNorm.Valid ∧ (generate_customer_profile dDtiNorm).is_fraud = 0 ∧
      ¬ ClaimedNormalRange (generate_customer_profile dDtiNorm) := by
  have hbS : dDtiSusp.uBranch < 2/10 := by norm_num [dDtiSusp, dZero]
  have hgS := gen_eq_suspicious dDtiSusp hbS
  have hbN : ¬ dDtiNorm.uBranch < 2/10 := by
    norm_num [dDtiNorm, dZero, Rat.mkRat_eq_div]
  have hgN := gen_eq_normal dDtiNorm hbN
  have hdS : (generate_customer_profile dDtiSusp).debt_to_income = 6/5 := by
    rw [hgS]; exact dDtiSusp_dti_eval
  have hdN : (generate_customer_profile dDtiNorm).debt_to_income = 1/2 := by
    rw [hgN]; exact dDtiNorm_dti_eval
  refine ⟨?_, by rw [hgS]; rfl, ?_, ?_, by rw [hgN]; rfl, ?_⟩
  · norm_num [dDtiSusp, dZero, ProfileDraws.Valid, UnitIv, Rat.mkRat_eq_div]
  · intro hcl
    have h2 := hcl.2.2.2.2.2.2.2.2.2.1
    rw [hdS] at h2
    norm_num at h2
  · norm_num [dDtiNorm, dZero, ProfileDraws.Valid, UnitIv, Rat.mkRat_eq_div]
  · intro hcl
    have h2 := hcl.2.2.2.2.2.2.2.2.2.1
    rw [hdN] at h2
    norm_num at h2

/-- **C3 (amended).** For every valid draw, each profile field lies in its
branch's documented range or pool, with the two rounded uniform-real
fields (`employment_length`, `debt_to_income`) in the *closed* intervals
`[0,2]` / `[0.6,1.2]` (suspicious) and `[1,15]` / `[0.1,0.5]` (normal),
since rounding at the stored precision can reach the upper endpoint;
the pools have 49 / 254 / 999 entries and the suspicious branch picks
devices from the first 100 entries only. -/
theorem profile_ranges_amended (d : ProfileDraws) (h : d.Valid) :
    PoolSizesOK ∧
    ((generate_customer_profile d).is_fraud = 1 →
      SuspiciousRangeOK (generate_customer_profile d)) ∧
    ((generate_customer_profile d).is_fraud = 0 →
      NormalRangeOK (generate_customer_profile d)) := by
  by_cases hb : d.uBranch < 2/10
  · rw [gen_eq_suspicious d hb]
    refine ⟨pool_sizes, fun _ => suspiciousRangeOK_of_valid d h, fun h0 => ?_⟩
    have h0' : (1 : ℤ) = 0 := h0
    exact absurd h0' (by norm_num)
  · rw [gen_eq_normal d hb]
    refine ⟨pool_sizes, fun h1 => ?_, fun _ => normalRangeOK_of_valid d h⟩
    have h1' : (0 : ℤ) = 1 := h1
    exact absurd h1' (by norm_num)

/-- Witness for the amended C3 at the all-zero draw. -/
theorem profile_ranges_amended_witness :
    dZero.Valid ∧
    (PoolSizesOK ∧
      ((generate_customer_profile dZero).is_fraud = 1 →
        SuspiciousRangeOK (generate_customer_profile dZero)) ∧
      ((generate_customer_profile dZero).is_fraud = 0 →
        NormalRangeOK (generate_customer_profile dZero))) :=
  ⟨by decide, profile_ranges_amended dZero (by decide)⟩

lemma dIncome15001_income_eval :
    randint 15000 35000 dIncome15001.uIncome = 15001 := by
  unfold randint
  rw [show dIncome15001.uIncome = mkRat 1 20001 from rfl, Rat.mkRat_eq_div]
  norm_num [Int.floor_one]

lemma dIncome15001_loan_eval :
    (suspiciousProfile dIncome15001).loan_amount = 12000 := by
  show randint (pyInt ((randint 15000 35000 dIncome15001.uIncome : ℚ) * (8/10)))
      (pyInt ((randint 15000 35000 dIncome15001.uIncome : ℚ) * (25/10)))
      dIncome15001.uLoan = 12000
  rw [dIncome15001_income_eval]
  have hA : pyInt (((15001 : ℤ) : ℚ) * (8/10)) = 12000 := by
    unfold pyInt
    rw [if_neg (by norm_num)]
    exact floor_eval _ 12000 (by norm_num) (by norm_num)
  have hB : pyInt (((15001 : ℤ) : ℚ) * (25/10)) = 37502 := by
    unfold pyInt
    rw [if_neg (by norm_num)]
    exact floor_eval _ 37502 (by norm_num) (by norm_num)
  rw [hA, hB]
  unfold randint
  rw [show dIncome15001.uLoan = (0 : ℚ) from rfl]
  norm_num [Int.floor_zero]

/-- **C4 counterexample.** With suspicious draws giving
`annual_income = 15001` and the lowest loan draw, the generated
`loan_amount` is `int(15001 * 0.8) = 12000`, which is strictly below
`0.8 × 15001 = 12000.8`: the claimed lower bound fails. -/
theorem loan_bound_claim_fails :
    dIncome15001.Valid ∧
    (generate_customer_profile dIncome15001).is_fraud = 1 ∧
    (generate_customer_profile dIncome15001).annual_income = 15001 ∧
    (generate_customer_profile dIncome15001).loan_amount = 12000 ∧
    ¬ ClaimedLoanBounds (generate_customer_profile dIncome15001) := by
  have hb : dIncome15001.uBranch < 2/10 := by norm_num [dIncome15001, dZero]
  have hg := gen_eq_suspicious dIncome15001 hb
  have hinc : (generate_customer_profile dIncome15001).annual_income = 15001 := by
    rw [hg]; exact dIncome15001_income_eval
  have hloan : (generate_customer_profile dIncome15001).loan_amount = 12000 := by
    rw [hg]; exact dIncome15001_loan_eval
  refine ⟨?_, by rw [hg]; rfl, hinc, hloan, ?_⟩
  · norm_num [dIncome15001, dZero, ProfileDraws.Valid, UnitIv, Rat.mkRat_eq_div]
  · intro hcl
    have h1 := (hcl.1 (by rw [hg]; rfl)).1
    rw [hinc, hloan] at h1
    norm_num at h1

lemma amendedLoanBounds_suspicious (d : ProfileDraws) (h : d.Valid) :
    AmendedLoanBounds (suspiciousProfile d) := by
  obtain ⟨hB, hA, hC, hI, hE, hD, hL, hIp, hDev, hLoan⟩ := h
  have hin := randint_mem 15000 35000 d.uIncome (by norm_num) hI.1 hI.2
  set inc := randint 15000 35000 d.uIncome with hincdef
  have hinc0 : (0 : ℚ) ≤ (inc : ℚ) := by
    have h0 : (0 : ℤ) ≤ inc := by
      have h15 := hin.1
      omega
    exact_mod_cast h0
  have h08 : (0 : ℚ) ≤ (inc : ℚ) * (8/10) := mul_nonneg hinc0 (by norm_num)
  have h25 : (0 : ℚ) ≤ (inc : ℚ) * (25/10) := mul_nonneg hinc0 (by norm_num)
  have hfl08 : pyInt ((inc : ℚ) * (8/10)) = ⌊(inc : ℚ) * (8/10)⌋ :=
    pyInt_eq_floor _ h08
  have hfl25 : pyInt ((inc : ℚ) * (25/10)) = ⌊(inc : ℚ) * (25/10)⌋ :=
    pyInt_eq_floor _ h25
  have hab : pyInt ((inc : ℚ) * (8/10)) ≤ pyInt ((inc : ℚ) * (25/10)) := by
    rw [hfl08, hfl25]
    apply Int.floor_le_floor
    nlinarith
  have hlr := randint_mem (pyInt ((inc : ℚ) * (8/10))) (pyInt ((inc : ℚ) * (25/10)))
    d.uLoan hab hLoan.1 hLoan.2
  set loan := randint (pyInt ((inc : ℚ) * (8/10))) (pyInt ((inc : ℚ) * (25/10)))
    d.uLoan with hloandef
  refine ⟨fun _ => ⟨?_, ?_, ?_, ?_⟩, fun h0 => ?_⟩
  · show pyInt ((inc : ℚ) * (8/10)) ≤ loan
    exact hlr.1
  · show loan ≤ pyInt ((inc : ℚ) * (25/10))
    exact hlr.2
  · show (inc : ℚ) * (8/10) - 1 < (loan : ℚ)
    have hcast : ((pyInt ((inc : ℚ) * (8/10)) : ℤ) : ℚ) ≤ (loan : ℚ) := by
      exact_mod_cast hlr.1
    rw [hfl08] at hcast
    have hflr := Int.sub_one_lt_floor ((inc : ℚ) * (8/10))
    linarith
  · show (loan : ℚ) ≤ (inc : ℚ) * (25/10)
    have hcast : (loan : ℚ) ≤ ((pyInt ((inc : ℚ) * (25/10)) : ℤ) : ℚ) := by
      exact_mod_cast hlr.2
    rw [hfl25] at hcast
    have hfle := Int.floor_le ((inc : ℚ) * (25/10))
    linarith
  · have h0' : (1 : ℤ) = 0 := h0
    exact absurd h0' (by norm_num)

lemma amendedLoanBounds_normal (d : ProfileDraws) (h : d.Valid) :
    AmendedLoanBounds (normalProfile d) := by
  obtain ⟨hB, hA, hC, hI, hE, hD, hL, hIp, hDev, hLoan⟩ := h
  have hin := randint_mem 40000 120000 d.uIncome (by norm_num) hI.1 hI.2
  set inc := randint 40000 120000 d.uIncome with hincdef
  have hinc0 : (0 : ℚ) ≤ (inc : ℚ) := by
    have h0 : (0 : ℤ) ≤ inc := by
      have h40 := hin.1
      omega
    exact_mod_cast h0
  have h01 : (0 : ℚ) ≤ (inc : ℚ) * (1/10) := mul_nonneg hinc0 (by norm_num)
  have h06 : (0 : ℚ) ≤ (inc : ℚ) * (6/10) := mul_nonneg hinc0 (by norm_num)
  have hfl01 : pyInt ((inc : ℚ) * (1/10)) = ⌊(inc : ℚ) * (1/10)⌋ :=
    pyInt_eq_floor _ h01
  have hfl06 : pyInt ((inc : ℚ) * (6/10)) = ⌊(inc : ℚ) * (6/10)⌋ :=
    pyInt_eq_floor _ h06
  have hab : pyInt ((inc : ℚ) * (1/10)) ≤ pyInt ((inc : ℚ) * (6/10)) := by
    rw [hfl01, hfl06]
    apply Int.floor_le_floor
    nlinarith
  have hlr := randint_mem (pyInt ((inc : ℚ) * (1/10))) (pyInt ((inc : ℚ) * (6/10)))
    d.uLoan hab hLoan.1 hLoan.2
  set loan := randint (pyInt ((inc : ℚ) * (1/10))) (pyInt ((inc : ℚ) * (6/10)))
    d.uLoan with hloandef
  refine ⟨fun h1 => ?_, fun _ => ⟨?_, ?_, ?_, ?_⟩⟩
  · have h1' : (0 : ℤ) = 1 := h1
    exact absurd h1' (by norm_num)
  · show pyInt ((inc : ℚ) * (1/10)) ≤ loan
    exact hlr.1
  · show loan ≤ pyInt ((inc : ℚ) * (6/10))
    exact hlr.2
  · show (inc : ℚ) * (1/10) - 1 < (loan : ℚ)
    have hcast : ((pyInt ((inc : ℚ) * (1/10)) : ℤ) : ℚ) ≤ (loan : ℚ) := by
      exact_mod_cast hlr.1
    rw [hfl01] at hcast
    have hflr := Int.sub_one_lt_floor ((inc : ℚ) * (1/10))
    linarith
  · show (loan : ℚ) ≤ (inc : ℚ) * (6/10)
    have hcast : (loan : ℚ) ≤ ((pyInt ((inc : ℚ) * (6/10)) : ℤ) : ℚ) := by
      exact_mod_cast hlr.2
    rw [hfl06] at hcast
    have hfle := Int.floor_le ((inc : ℚ) * (6/10))
    linarith

/-- **C4 (amended).** For every valid draw, `loan_amount` lies in
`[int(0.8 × income), int(2.5 × income)]` (suspicious) respectively
`[int(0.1 × income), int(0.6 × income)]` (normal): the upper bound
`loan_amount ≤ 2.5 × income` (resp. `0.6 × income`) holds exactly, while
the lower bound holds only up to the `int` truncation, i.e.
`loan_amount > 0.8 × income − 1` (resp. `> 0.1 × income − 1`). -/
theorem loan_bounds_amended (d : ProfileDraws) (h : d.Valid) :
    AmendedLoanBounds (generate_customer_profile d) := by
  by_cases hb : d.uBranch < 2/10
  · rw [gen_eq_suspicious d hb]
    exact amendedLoanBounds_suspicious d h
  · rw [gen_eq_normal d hb]
    exact amendedLoanBounds_normal d h

/-- Witness for the amended C4 at the all-zero draw. -/
theorem loan_bounds_amended_witness :
    dZero.Valid ∧ AmendedLoanBounds (generate_customer_profile dZero) :=
  ⟨by decide, loan_bounds_amended dZero (by decide)⟩

/-- **C1.** Evaluation of the batch path against a publisher whose every
publish fails: `batch_send_historical_data` over five records returns
normally (`Except.ok`, no exception escapes), all five rows are
persisted and `sent_count = 0`, but every persisted row has
`kafka_sent = true` — the source's `store_locally(app, True)` ignores
the observed `kafka_success`, contradicting the claimed
`kafka_sent = false`. -/
theorem batch_all_rows_marked_sent :
    (batch_send_historical_data alwaysFailPub inputs5 []).toOption.map
        (fun st => (st.1.length, st.1.all (fun r => r.kafka_sent), st.2.1)) =
      some (5, true, 0) := by
  rfl

/-- **C5 counterexample.** `generate_loan_application` takes three
separate `datetime.now()` reads; with a clock that advances between the
`created_at` and `updated_at` reads the three instant fields are not all
equal. -/
theorem live_timestamps_claim_fails :
    ¬ ((generate_loan_application appInputsTick).application_timestamp =
        (generate_loan_application appInputsTick).created_at ∧
      (generate_loan_application appInputsTick).created_at =
        (generate_loan_application appInputsTick).updated_at) := by
  intro h
  have h2 : (0 : ℤ) = 1 := h.2
  exact absurd h2 (by norm_num)

/-- **C5 (amended).** The three instant fields are taken from three
successive `now()` reads in order (`application_timestamp`, then
`created_at`, then `updated_at`); whenever the clock does not advance
during construction the three fields are equal to that single `now`. -/
theorem live_timestamps_amended (i : AppInputs)
    (h1 : i.t1 = i.t2) (h2 : i.t2 = i.t3) :
    (generate_loan_application i).application_timestamp = i.t1 ∧
    (generate_loan_application i).created_at = i.t1 ∧
    (generate_loan_application i).updated_at = i.t1 := by
  refine ⟨rfl, ?_, ?_⟩
  · show i.t2 = i.t1
    exact h1.symm
  · show i.t3 = i.t1
    exact (h1.trans h2).symm

/-- Witness for the amended C5 at coinciding clock reads. -/
theorem live_timestamps_amended_witness :
    appInputsSame.t1 = appInputsSame.t2 ∧ appInputsSame.t2 = appInputsSame.t3 ∧
    ((generate_loan_application appInputsSame).application_timestamp = appInputsSame.t1 ∧
      (generate_loan_application appInputsSame).created_at = appInputsSame.t1 ∧
      (generate_loan_application appInputsSame).updated_at = appInputsSame.t1) :=
  ⟨rfl, rfl, live_timestamps_amended appInputsSame rfl rfl⟩

/-- **C6.** Every historical record carries one single backdated instant
in all three timestamp fields, and that instant lies within
`[now − 90 days, now − 1 day]`. -/
theorem historical_timestamps_consistent (app : LoanApplication) (nowB : ℤ)
    (uDays : ℚ) (h0 : 0 ≤ uDays) (h1 : uDays < 1) :
    (make_historical app nowB uDays).application_timestamp =
      (make_historical app nowB uDays).created_at ∧
    (make_historical app nowB uDays).created_at =
      (make_historical app nowB uDays).updated_at ∧
    nowB - 90 * 86400 ≤ (make_historical app nowB uDays).application_timestamp ∧
    (make_historical app nowB uDays).application_timestamp ≤ nowB - 86400 := by
  have hd := randint_mem 1 90 uDays (by norm_num) h0 h1
  refine ⟨rfl, rfl, ?_, ?_⟩
  · show nowB - 90 * 86400 ≤ nowB - randint 1 90 uDays * 86400
    have hmul : randint 1 90 uDays * 86400 ≤ 90 * 86400 :=
      mul_le_mul_of_nonneg_right hd.2 (by norm_num)
    omega
  · show nowB - randint 1 90 uDays * 86400 ≤ nowB - 86400
    have hmul : 1 * 86400 ≤ randint 1 90 uDays * 86400 :=
      mul_le_mul_of_nonneg_right hd.1 (by norm_num)
    omega

/-- Witness for C6 at `now = 0` and the zero draw. -/
theorem historical_timestamps_consistent_witness :
    (0 : ℚ) ≤ 0 ∧ (0 : ℚ) < 1 ∧
    ((make_historical appZero 0 0).application_timestamp =
        (make_historical appZero 0 0).created_at ∧
      (make_historical appZero 0 0).created_at =
        (make_historical appZero 0 0).updated_at ∧
      (0 : ℤ) - 90 * 86400 ≤ (make_historical appZero 0 0).application_timestamp ∧
      (make_historical appZero 0 0).application_timestamp ≤ (0 : ℤ) - 86400) :=
  ⟨by decide, by decide,
    historical_timestamps_consistent appZero 0 0 (by decide) (by decide)⟩

/-- **C7.** Evaluation of the cancellation handler of
`generate_and_stream`: with `applications_sent = 0` the fraud-rate line
divides by zero, so the handler raises and neither the summary nor the
final `producer.flush()` completes; with at least one application sent
the summary and flush do complete (shown at 3 sent, 1 fraud). -/
theorem stream_shutdown_zero_raises :
    stream_shutdown 0 0 = Except.error PyErr.zeroDivision ∧
    stream_shutdown 3 1 = Except.ok ((3, 1, 100/3), true) := by
  constructor
  · rfl
  · show Except.ok ((3, 1, ((1 : ℕ) : ℚ) / ((3 : ℕ) : ℚ) * 100), true) =
      Except.ok ((3, 1, (100/3 : ℚ)), true)
    norm_num

/-- **C8.** Inserting an application whose `loan_id` already exists in
the store raises the duplicate-key error, and the error propagates: a
generation loop continuing with further inserts aborts with that same
error instead of silently ignoring the duplicate. -/
theorem duplicate_insert_raises (db : List StoredRow) (app : LoanApplication)
    (ks : Bool) (rest : List (LoanApplication × Bool))
    (h : ∃ r ∈ db, r.app.loan_id = app.loan_id) :
    store_locally db app ks = Except.error PyErr.duplicateKey ∧
    insert_all db ((app, ks) :: rest) = Except.error PyErr.duplicateKey := by
  have hany : db.any (fun r => r.app.loan_id == app.loan_id) = true := by
    obtain ⟨r, hr, hid⟩ := h
    exact List.any_eq_true.mpr ⟨r, hr, by simp [hid]⟩
  have hsl : store_locally db app ks = Except.error PyErr.duplicateKey := by
    unfold store_locally
    rw [if_pos hany]
  refine ⟨hsl, ?_⟩
  simp only [insert_all]
  rw [hsl]

/-- Witness for C8 at a store already holding the same `loan_id`. -/
theorem duplicate_insert_raises_witness :
    store_locally dbOne appZero true = Except.error PyErr.duplicateKey ∧
    insert_all dbOne ((appZero, true) :: [(appOther, false)]) =
      Except.error PyErr.duplicateKey :=
  duplicate_insert_raises dbOne appZero true [(appOther, false)]
    ⟨⟨appZero, false⟩, by simp [dbOne], rfl⟩

/-- **C9.** For every since-bound, `query_recent_applications` returns a
permutation of exactly the stored rows with `application_timestamp` at
or after the bound, sorted by `application_timestamp` descending; a row
is in the result iff it is stored and at or after the bound. -/
theorem query_recent_spec (db : List StoredRow) (since : ℤ) :
    (query_recent_applications db since).Perm
      (db.filter (fun r => since ≤ r.app.application_timestamp)) ∧
    List.Sorted (fun a b => b.app.application_timestamp ≤ a.app.application_timestamp)
      (query_recent_applications db since) ∧
    ∀ r : StoredRow, r ∈ query_recent_applications db since ↔
      r ∈ db ∧ since ≤ r.app.application_timestamp := by
  unfold query_recent_applications
  refine ⟨List.perm_insertionSort _ _, List.sorted_insertionSort _ _, fun r => ?_⟩
  rw [(List.perm_insertionSort _ _).mem_iff, List.mem_filter]
  simp

/-- **C10.** On an empty store `show_fraud_stats` reports zero for the
total, the fraud count, the fraud rate and both class averages — no
division by zero and no null average escapes. -/
theorem fraud_stats_empty :
    show_fraud_stats [] =
      { total := 0, fraud_count := 0, fraud_rate := 0,
        avg_fraud_amount := 0, avg_normal_amount := 0 } := by
  rfl

end LoanGen
